import Mathlib

/-!
Verification development for the Student Performance Analyzer
(`src/analyzer.py`, class `StudentPerformanceAnalyzer`).

Numbers are modelled as exact rationals (`ℚ`); the Python `round(x, 2)`
(round-half-to-even at two decimals) is modelled by `rnd2`.  The one
irrational quantity, `np.std` (a population standard deviation, hence a
real square root), is modelled over `ℝ`.  Score-series strings are
modelled as Lean `String`s and the builtin `float()` token parser as a
decimal-literal parser `parseFloat?` (optional sign, digits, optional
fractional part); exotic float syntax (exponents, `inf`/`nan`,
digit-group underscores) is not exercised by any claim and is omitted.
A value that may be absent from a record (`row.get(key, default)`) is an
`Option`; a Python `dict` (insertion ordered, last-write-wins keeping
the original slot of an overwritten key) is an association list built by
`insertOrd`; a method that can raise `ValueError` returns `Except`.
-/

namespace StudentPerf

/-- Round a rational to the nearest integer, ties to the even integer
(Python's `round` applied to an exactly-representable value). -/
def roundHalfEven (q : ℚ) : ℤ :=
  let f : ℤ := Int.floor q
  let r : ℚ := q - f
  if r < 1/2 then f
  else if r > 1/2 then f + 1
  else if f % 2 = 0 then f else f + 1

/-- Python `round(q, 2)` on an exact rational. -/
def rnd2 (q : ℚ) : ℚ := (roundHalfEven (q * 100) : ℚ) / 100

/-- Rounding `round(x, 2)` for the one real-valued quantity (the standard
deviation). -/
noncomputable def roundHalfEvenR (x : ℝ) : ℤ :=
  let f : ℤ := Int.floor x
  if x - f < 1/2 then f
  else if x - f > 1/2 then f + 1
  else if f % 2 = 0 then f else f + 1

/-- Real-valued `round(x, 2)`. -/
noncomputable def rnd2R (x : ℝ) : ℝ := (roundHalfEvenR (x * 100) : ℝ) / 100

/-- Numeric value of a list of decimal digit characters. -/
def natOfDigits (cs : List Char) : ℕ :=
  cs.foldl (fun n c => 10 * n + (c.toNat - 48)) 0

/-- Python `str.strip()` (restricted to ASCII whitespace, the only kind
any record contains). -/
def pyStrip (cs : List Char) : List Char :=
  ((cs.dropWhile Char.isWhitespace).reverse.dropWhile Char.isWhitespace).reverse

/-- Python `str.split(sep)` for a one-character separator: `n`
separators always make `n + 1` fields, the empty string makes one empty
field. -/
def splitChar (sep : Char) : List Char → List (List Char)
  | [] => [[]]
  | c :: t =>
      if c = sep then [] :: splitChar sep t
      else
        match splitChar sep t with
        | [] => [[c]]
        | f :: rest => (c :: f) :: rest

/-- Decimal literal without sign: `digits`, `digits.digits`, `digits.`
or `.digits` (at least one digit overall), as accepted by `float()`. -/
def parseUnsigned? (cs : List Char) : Option ℚ :=
  match splitChar '.' cs with
  | [i] =>
      if i ≠ [] ∧ i.all Char.isDigit then some (natOfDigits i : ℚ) else none
  | [i, f] =>
      if (i ≠ [] ∨ f ≠ []) ∧ i.all Char.isDigit ∧ f.all Char.isDigit then
        some ((natOfDigits i : ℚ) + (natOfDigits f : ℚ) / 10 ^ f.length)
      else none
  | _ => none

/-- The builtin `float(token)` on a whitespace-stripped token: optional
sign then an unsigned decimal literal; `none` models `ValueError`. -/
def parseFloat? : List Char → Option ℚ
  | '-' :: t => (parseUnsigned? t).map Neg.neg
  | '+' :: t => parseUnsigned? t
  | cs => parseUnsigned? cs

/-- Embeds `[float(s.strip()) for s in tokens]`: every token must parse, the
first failure aborts the whole comprehension (`ValueError`). -/
def parseTokens : List (List Char) → Option (List ℚ)
  | [] => some []
  | t :: ts =>
      match parseFloat? (pyStrip t), parseTokens ts with
      | some q, some qs => some (q :: qs)
      | _, _ => none

/-- Embeds `np.mean` on an exact list (guarded against `[]` by every caller). -/
def mean (l : List ℚ) : ℚ := l.sum / l.length

/-- The shared front end of `calculate_average_score` and
`calculate_trend`: the `pd.isna`/`== ''` guard, the comma split and the
per-token `float(s.strip())` comprehension; `none` is every path that
ends in the `0.0` / `'stable'` fallback. -/
def parseScores (scores_str : Option String) : Option (List ℚ) :=
  match scores_str with
  | none => none
  | some s => if s.data = [] then none else parseTokens (splitChar ',' s.data)

/-- Embeds `StudentPerformanceAnalyzer.calculate_average_score`. -/
def calculate_average_score (scores_str : Option String) : ℚ :=
  match parseScores scores_str with
  | none => 0
  | some scores => rnd2 (mean scores)

/-- Embeds `StudentPerformanceAnalyzer.calculate_trend`. -/
def calculate_trend (scores_str : Option String) : String :=
  match parseScores scores_str with
  | none => "stable"
  | some scores =>
      if scores.length < 2 then "stable"
      else
        let mid := scores.length / 2
        let first_half := mean (scores.take mid)
        let second_half := mean (scores.drop mid)
        let diff := second_half - first_half
        if diff > 5 then "improving"
        else if diff < -5 then "declining"
        else "stable"

/-- Embeds `StudentPerformanceAnalyzer.determine_risk_level`. -/
def determine_risk_level (avg_score attendance completion : ℚ) : String :=
  let risk_score : ℚ :=
    (100 - avg_score) * (4/10) +
    (100 - attendance) * (3/10) +
    (100 - completion) * (3/10)
  if risk_score ≥ 40 then "high"
  else if risk_score ≥ 20 then "medium"
  else "low"

/-- The dataclass `StudentMetrics`. -/
structure StudentMetrics where
  student_id : String
  average_score : ℚ
  attendance_rate : ℚ
  assignment_completion : ℚ
  trend : String
  risk_level : String
deriving DecidableEq

/-- One row of the loaded data, as `analyze_student` reads it through
`row.get`: a field read with a default is optional (`none` = the key is
absent, so `row.get` yields the default). -/
structure Record where
  student_id : String
  assignment_scores : Option String := none
  quiz_scores : Option String := none
  attendance : Option ℚ := none
  completion_rate : Option ℚ := none
deriving DecidableEq

/-- Embeds `StudentPerformanceAnalyzer.analyze_student`. -/
def analyze_student (row : Record) : StudentMetrics :=
  let avg_assignment := calculate_average_score row.assignment_scores
  let avg_quiz := calculate_average_score row.quiz_scores
  let average_score := rnd2 ((avg_assignment + avg_quiz) / 2)
  let attendance := row.attendance.getD 0
  let completion := row.completion_rate.getD 100
  let trend := calculate_trend row.assignment_scores
  let risk_level := determine_risk_level average_score attendance completion
  { student_id := row.student_id
    average_score := average_score
    attendance_rate := attendance
    assignment_completion := completion
    trend := trend
    risk_level := risk_level }

/-- Embeds `d[k] = v` on an insertion-ordered Python dict: an existing key
keeps its slot and gets the new value, a new key is appended. -/
def insertOrd (m : List (String × StudentMetrics)) (k : String)
    (v : StudentMetrics) : List (String × StudentMetrics) :=
  if m.any (fun p => p.1 = k) then
    m.map (fun p => if p.1 = k then (k, v) else p)
  else m ++ [(k, v)]

/-- Embeds `d.get(k)` on the ordered dict. -/
def lookupOrd (m : List (String × StudentMetrics)) (k : String) :
    Option StudentMetrics :=
  (m.find? (fun p => p.1 = k)).map Prod.snd

/-- One iteration of `analyze_all_students`'s loop:
`metrics = self.analyze_student(row); self.metrics[metrics.student_id] = metrics`. -/
def buildStep (acc : List (String × StudentMetrics)) (row : Record) :
    List (String × StudentMetrics) :=
  let metrics := analyze_student row
  insertOrd acc metrics.student_id metrics

/-- The whole loop of `analyze_all_students`, starting from the freshly
cleared `self.metrics = {}`. -/
def buildMetrics (rows : List Record) : List (String × StudentMetrics) :=
  rows.foldl buildStep []

/-- The mutable state of one `StudentPerformanceAnalyzer` instance:
`self.data` (no DataFrame loaded = `none`) and `self.metrics`. -/
structure AnalyzerState where
  data : Option (List Record)
  metrics : List (String × StudentMetrics)
deriving DecidableEq

/-- Embeds `StudentPerformanceAnalyzer.analyze_all_students`; `.error` is the
`ValueError("No data loaded. ...")` raise. -/
def analyze_all_students (st : AnalyzerState) :
    Except String (List (String × StudentMetrics) × AnalyzerState) :=
  match st.data with
  | none => .error "No data loaded. Call load_data() first."
  | some rows =>
      let m := buildMetrics rows
      .ok (m, { st with metrics := m })

/-- Embeds `StudentPerformanceAnalyzer.get_at_risk_students`. -/
def get_at_risk_students (st : AnalyzerState) (risk_level : String) :
    Except String (List StudentMetrics × AnalyzerState) :=
  if st.metrics = [] then
    match analyze_all_students st with
    | .error e => .error e
    | .ok (_, st2) =>
        .ok ((st2.metrics.map Prod.snd).filter
              (fun m => m.risk_level = risk_level), st2)
  else
    .ok ((st.metrics.map Prod.snd).filter
          (fun m => m.risk_level = risk_level), st)

/-- Embeds `np.std(scores) ** 2`: the population variance (`np.std` divides the
squared deviations by `n`, not `n - 1`). -/
def popVariance (l : List ℚ) : ℚ :=
  (l.map (fun x => (x - mean l) ^ 2)).sum / l.length

/-- The dict returned by `get_statistics`, with the risk/trend count
sub-dicts flattened into fields. -/
structure Statistics where
  total_students : ℕ
  average_score_mean : ℚ
  average_score_std : ℝ
  average_attendance : ℚ
  risk_low : ℕ
  risk_medium : ℕ
  risk_high : ℕ
  trend_improving : ℕ
  trend_stable : ℕ
  trend_declining : ℕ
  at_risk_percentage : ℚ

/-- The dict literal built at the end of `get_statistics` from
`self.metrics`.  The bucket-count loop is expressed as one filter count
per bucket; this is pointwise equal to the increment loop because every
produced `risk_level` / `trend` lies in the dicts' fixed key sets. -/
noncomputable def statisticsOf (metrics : List (String × StudentMetrics)) :
    Statistics :=
  let values := metrics.map Prod.snd
  let scores := values.map (fun m => m.average_score)
  let attendance := values.map (fun m => m.attendance_rate)
  let risk_high := (values.filter (fun m => m.risk_level = "high")).length
  let risk_medium := (values.filter (fun m => m.risk_level = "medium")).length
  { total_students := metrics.length
    average_score_mean := if scores ≠ [] then rnd2 (mean scores) else 0
    average_score_std :=
      if scores ≠ [] then rnd2R (Real.sqrt (popVariance scores)) else 0
    average_attendance := if attendance ≠ [] then rnd2 (mean attendance) else 0
    risk_low := (values.filter (fun m => m.risk_level = "low")).length
    risk_medium := risk_medium
    risk_high := risk_high
    trend_improving := (values.filter (fun m => m.trend = "improving")).length
    trend_stable := (values.filter (fun m => m.trend = "stable")).length
    trend_declining := (values.filter (fun m => m.trend = "declining")).length
    at_risk_percentage :=
      if metrics ≠ [] then
        rnd2 (((risk_high : ℚ) + (risk_medium : ℚ)) / metrics.length * 100)
      else 0 }

/-- Embeds `StudentPerformanceAnalyzer.get_statistics`. -/
noncomputable def get_statistics (st : AnalyzerState) :
    Except String (Statistics × AnalyzerState) :=
  if st.metrics = [] then
    match analyze_all_students st with
    | .error e => .error e
    | .ok (_, st2) => .ok (statisticsOf st2.metrics, st2)
  else .ok (statisticsOf st.metrics, st)

/-- Message emitted for an unknown id. -/
def msgNotFound : String := "Student not found in analyzed data."

/-- Message for `average_score < 60`. -/
def msgTutoring : String :=
  "Consider additional tutoring sessions to improve understanding."

/-- Message for `attendance_rate < 80`. -/
def msgAttendance : String :=
  "Attendance is below optimal. Regular attendance strongly correlates with better performance."

/-- Message for `assignment_completion < 90`. -/
def msgCompletion : String :=
  "Focus on completing all assignments. Missing assignments significantly impact final grades."

/-- Message for a declining trend. -/
def msgDeclining : String :=
  "Performance trend is declining. Schedule a meeting to discuss challenges."

/-- Message for high risk. -/
def msgHighRisk : String :=
  "HIGH PRIORITY: This student needs immediate intervention."

/-- The positive-reinforcement message. -/
def msgPositive : String :=
  "Student is performing well. Continue current study habits."

/-- Embeds `StudentPerformanceAnalyzer.generate_recommendations`. -/
def generate_recommendations (st : AnalyzerState) (student_id : String) :
    List String :=
  match lookupOrd st.metrics student_id with
  | none => [msgNotFound]
  | some metrics =>
      let recommendations :=
        (if metrics.average_score < 60 then [msgTutoring] else []) ++
        (if metrics.attendance_rate < 80 then [msgAttendance] else []) ++
        (if metrics.assignment_completion < 90 then [msgCompletion] else []) ++
        (if metrics.trend = "declining" then [msgDeclining] else []) ++
        (if metrics.risk_level = "high" then [msgHighRisk] else [])
      if recommendations = [] then [msgPositive] else recommendations

/-- The distinct identifiers of a list, each at the position of its
first occurrence: the key order a Python dict ends up with after
last-write-wins insertion of all the records. -/
def dedupKeepFirst : List String → List String
  | [] => []
  | a :: t => a :: (dedupKeepFirst t).filter (fun x => x ≠ a)

/-! ### Evaluation helpers -/

/-- Evaluate `rnd2` away from a tie: if `q * 100` is within `1/2`
(strictly) of the integer `n`, rounding at two decimals gives `n/100`. -/
theorem rnd2_eval {q : ℚ} {n : ℤ}
    (h1 : (2 * n - 1 : ℚ) < q * 200) (h2 : q * 200 < 2 * n + 1) :
    rnd2 q = (n : ℚ) / 100 := by
  unfold rnd2 roundHalfEven
  rcases le_or_lt (n : ℚ) (q * 100) with hge | hlt
  · have hfloor : Int.floor (q * 100) = n := by
      rw [Int.floor_eq_iff]
      refine ⟨by exact_mod_cast hge, by linarith⟩
    rw [hfloor]
    have hr : q * 100 - (n : ℚ) < 1 / 2 := by linarith
    simp only [hr, if_pos]
  · have hfloor : Int.floor (q * 100) = n - 1 := by
      rw [Int.floor_eq_iff]
      push_cast
      constructor
      · linarith
      · linarith
    rw [hfloor]
    have hr1 : ¬ (q * 100 - ((n - 1 : ℤ) : ℚ) < 1 / 2) := by
      push_cast
      linarith
    have hr2 : q * 100 - ((n - 1 : ℤ) : ℚ) > 1 / 2 := by
      push_cast
      linarith
    rw [if_neg hr1, if_pos hr2]
    push_cast
    ring_nf

/-- Fact: `analyze_student` copies the identifier through. -/
theorem analyze_student_id (row : Record) :
    (analyze_student row).student_id = row.student_id := rfl

/-- Replacing the value at key `k` does not change the key list. -/
theorem map_fst_replace (m : List (String × StudentMetrics)) (k : String)
    (v : StudentMetrics) :
    (m.map (fun p => if p.1 = k then (k, v) else p)).map Prod.fst =
      m.map Prod.fst := by
  induction m with
  | nil => rfl
  | cons p t ih => by_cases h : p.1 = k <;> simp [h, ih]

/-- A `find?` for a key other than the replaced one is unchanged by the
replacement. -/
theorem find?_replace_ne (m : List (String × StudentMetrics)) (k k' : String)
    (v : StudentMetrics) (hne : k' ≠ k) :
    (m.map (fun p => if p.1 = k then (k, v) else p)).find?
        (fun p => p.1 = k') =
      m.find? (fun p => p.1 = k') := by
  induction m with
  | nil => rfl
  | cons p t ih =>
      by_cases h : p.1 = k
      · simp [h, hne, Ne.symm hne, ih]
      · by_cases h2 : p.1 = k' <;> simp [h, h2, hne, ih]

/-- A `find?` at the replaced key finds the new pair, provided the key
occurs. -/
theorem find?_replace_self (m : List (String × StudentMetrics)) (k : String)
    (v : StudentMetrics) (hmem : m.any (fun p => p.1 = k) = true) :
    (m.map (fun p => if p.1 = k then (k, v) else p)).find?
        (fun p => p.1 = k) = some (k, v) := by
  induction m with
  | nil => simp at hmem
  | cons p t ih =>
      by_cases h : p.1 = k
      · simp [h]
      · simp only [List.any_cons, Bool.or_eq_true, decide_eq_true_eq] at hmem
        rcases hmem with hmem | hmem
        · exact absurd hmem h
        · simp [h, ih hmem]

/-- Dict write: looking up after `d[k] = v` yields `v` at `k` and the
old binding elsewhere. -/
theorem lookupOrd_insertOrd (m : List (String × StudentMetrics))
    (k k' : String) (v : StudentMetrics) :
    lookupOrd (insertOrd m k v) k' =
      if k' = k then some v else lookupOrd m k' := by
  unfold lookupOrd insertOrd
  by_cases hmem : m.any (fun p => p.1 = k) = true
  · rw [if_pos hmem]
    by_cases hk : k' = k
    · subst hk
      rw [find?_replace_self m k' v hmem, if_pos rfl]
      rfl
    · rw [find?_replace_ne m k k' v hk, if_neg hk]
  · rw [if_neg hmem, List.find?_append]
    have hnone : m.find? (fun p => p.1 = k) = none := by
      rw [List.find?_eq_none]
      intro x hx
      simp only [decide_eq_true_eq]
      intro hxk
      exact hmem (List.any_eq_true.mpr ⟨x, hx, by simp [hxk]⟩)
    by_cases hk : k' = k
    · subst hk
      simp [hnone]
    · have hsingle : [(k, v)].find? (fun p => p.1 = k') = none := by
        simp [Ne.symm hk]
      rw [hsingle, Option.or_none, if_neg hk]

/-- Last-write-wins over the whole loop: after folding the rows into an
accumulator dict, a key resolves to the analysis of the last row
carrying it, falling back to the accumulator's prior binding. -/
theorem lookupOrd_foldl (rows : List Record) :
    ∀ (m0 : List (String × StudentMetrics)) (k : String),
      lookupOrd (rows.foldl buildStep m0) k =
        ((rows.reverse.find? (fun r => r.student_id = k)).map
            analyze_student).or (lookupOrd m0 k) := by
  induction rows with
  | nil => intro m0 k; simp
  | cons r t ih =>
      intro m0 k
      simp only [List.foldl_cons, List.reverse_cons, List.find?_append]
      rw [ih]
      cases hf : t.reverse.find? (fun r => r.student_id = k) with
      | some r' => simp [hf]
      | none =>
          simp only [hf, Option.map_none, Option.none_or]
          show lookupOrd (insertOrd m0 (analyze_student r).student_id
            (analyze_student r)) k = _
          rw [lookupOrd_insertOrd, analyze_student_id]
          by_cases hk : r.student_id = k
          · simp [hk]
          · have : k ≠ r.student_id := Ne.symm hk
            simp [hk, this]

/-- Appending or overwriting: the key list after a dict write. -/
theorem map_fst_insertOrd (m : List (String × StudentMetrics)) (k : String)
    (v : StudentMetrics) :
    (insertOrd m k v).map Prod.fst =
      if m.any (fun p => p.1 = k) then m.map Prod.fst
      else m.map Prod.fst ++ [k] := by
  unfold insertOrd
  by_cases hmem : m.any (fun p => p.1 = k) = true
  · rw [if_pos hmem, if_pos hmem, map_fst_replace]
  · rw [if_neg hmem, if_neg hmem, List.map_append]
    rfl

/-- A key occurs in the dict iff `any` sees it. -/
theorem any_key_iff (m : List (String × StudentMetrics)) (k : String) :
    m.any (fun p => p.1 = k) = true ↔ k ∈ m.map Prod.fst := by
  simp [List.any_eq_true, List.mem_map]

/-- Key order over the whole loop: the keys after folding all rows are
the accumulator's keys followed by the rows' identifiers in
first-occurrence order, the ones already bound skipped. -/
theorem keys_foldl (rows : List Record) :
    ∀ m0 : List (String × StudentMetrics),
      (rows.foldl buildStep m0).map Prod.fst =
        m0.map Prod.fst ++
          (dedupKeepFirst (rows.map (fun r => r.student_id))).filter
            (fun x => x ∉ m0.map Prod.fst) := by
  induction rows with
  | nil => intro m0; simp [dedupKeepFirst]
  | cons r t ih =>
      intro m0
      simp only [List.foldl_cons, List.map_cons, dedupKeepFirst]
      rw [show buildStep m0 r =
        insertOrd m0 (analyze_student r).student_id (analyze_student r)
        from rfl]
      rw [ih, map_fst_insertOrd, analyze_student_id]
      by_cases hmem : m0.any (fun p => p.1 = r.student_id) = true
      · have hin : r.student_id ∈ m0.map Prod.fst := (any_key_iff _ _).mp hmem
        rw [if_pos hmem]
        rw [List.filter_cons, if_neg (by simp [hin])]
        rw [List.filter_filter]
        congr 1
        apply List.filter_congr
        intro x hx
        rw [← Bool.decide_and, decide_eq_decide]
        constructor
        · intro h
          exact ⟨h, fun he => h (he ▸ hin)⟩
        · intro h
          exact h.1
      · have hnotin : r.student_id ∉ m0.map Prod.fst := by
          intro hcon
          exact hmem ((any_key_iff _ _).mpr hcon)
        rw [if_neg hmem]
        rw [List.filter_cons, if_pos (by simp [hnotin])]
        rw [List.filter_filter, List.append_assoc, List.singleton_append]
        congr 1
        refine congrArg (fun l => r.student_id :: l) ?_
        apply List.filter_congr
        intro x hx
        rw [← Bool.decide_and, decide_eq_decide]
        simp only [List.mem_append, List.mem_singleton, not_or]

/-! ### Claims -/


/-- C2: for every numeric triple, with no validation or clamping,
`determine_risk_level` computes
`risk = (100 − avg)·0.4 + (100 − att)·0.3 + (100 − comp)·0.3` and
returns `high` when `risk ≥ 40`, `medium` when `20 ≤ risk < 40`, `low`
when `risk < 20`; in particular `(100,100,100) ↦ low`,
`(80,80,80) ↦ medium` (risk exactly 20 is medium) and
`(40,50,60) ↦ high`. -/
theorem determine_risk_level_spec :
    (∀ avg_score attendance completion : ℚ,
      determine_risk_level avg_score attendance completion =
        let risk := (100 - avg_score) * (4/10) + (100 - attendance) * (3/10) +
          (100 - completion) * (3/10)
        if 40 ≤ risk then "high"
        else if 20 ≤ risk ∧ risk < 40 then "medium"
        else "low") ∧
    determine_risk_level 100 100 100 = "low" ∧
    determine_risk_level 80 80 80 = "medium" ∧
    determine_risk_level 40 50 60 = "high" := by
  have hgen : ∀ avg_score attendance completion : ℚ,
      determine_risk_level avg_score attendance completion =
        let risk := (100 - avg_score) * (4/10) + (100 - attendance) * (3/10) +
          (100 - completion) * (3/10)
        if 40 ≤ risk then "high"
        else if 20 ≤ risk ∧ risk < 40 then "medium"
        else "low" := by
    intro a t c
    simp only [determine_risk_level, ge_iff_le]
    split_ifs with h1 h2 h3 h4 <;> first
      | rfl
      | (exfalso; first | exact h3 ⟨h2, lt_of_not_le h1⟩ | linarith [h4.1, h4.2])
  refine ⟨hgen, ?_, ?_, ?_⟩
  · rw [hgen]
    norm_num
  · rw [hgen]
    norm_num
  · rw [hgen]
    norm_num

/-- C4: for a string of comma-separated numeric tokens (whitespace
around tokens allowed), `calculate_average_score` is the arithmetic
mean of the parsed values rounded to two decimals; for null/missing,
empty, or malformed input (any token failing to parse) it is exactly
`0.0`, the failure never escaping to the caller. -/
theorem calculate_average_score_spec :
    calculate_average_score none = 0 ∧
    calculate_average_score (some "") = 0 ∧
    (∀ s : String, parseScores (some s) = none →
      calculate_average_score (some s) = 0) ∧
    (∀ (s : String) (scores : List ℚ), parseScores (some s) = some scores →
      calculate_average_score (some s) = rnd2 (mean scores)) ∧
    calculate_average_score (some "85, 90, 78") = 8433 / 100 := by
  refine ⟨rfl, by decide, ?_, ?_, ?_⟩
  · intro s h
    simp only [calculate_average_score, h]
  · intro s scores h
    simp only [calculate_average_score, h]
  · have h : parseScores (some "85, 90, 78") = some [85, 90, 78] := by decide
    simp only [calculate_average_score, h]
    have hm : mean [85, 90, 78] = 253 / 3 := by
      norm_num [mean]
    rw [hm, rnd2_eval (n := 8433) (by norm_num) (by norm_num)]
    norm_num

/-- C4 witness: a concrete well-formed series with whitespace around
tokens, parsed and averaged. -/
theorem calculate_average_score_spec_witness :
    parseScores (some "85, 90, 78") = some [85, 90, 78] ∧
    calculate_average_score (some "85, 90, 78") = rnd2 (mean [85, 90, 78]) :=
  ⟨by decide, calculate_average_score_spec.2.2.2.1 _ _ (by decide)⟩

/-- C3: `calculate_trend` is `stable` on null/empty/malformed input and
on a parsed sequence shorter than 2; otherwise, with
`mid = length / 2` (integer division, so the extra element of an
odd-length sequence goes to the second half), it is `improving` when
`mean second half − mean first half > 5`, `declining` when that delta
is `< −5`, and `stable` otherwise — a delta of exactly `5` or `−5`
(shown on "0,5" and "5,0") is `stable`. -/
theorem calculate_trend_spec :
    (∀ scores_str, parseScores scores_str = none →
      calculate_trend scores_str = "stable") ∧
    (∀ (s : Option String) (scores : List ℚ), parseScores s = some scores →
      scores.length < 2 → calculate_trend s = "stable") ∧
    (∀ (s : Option String) (scores : List ℚ), parseScores s = some scores →
      2 ≤ scores.length →
      calculate_trend s =
        (let mid := scores.length / 2
         let diff := mean (scores.drop mid) - mean (scores.take mid)
         if 5 < diff then "improving"
         else if diff < -5 then "declining"
         else "stable")) ∧
    calculate_trend (some "0,5") = "stable" ∧
    calculate_trend (some "5,0") = "stable" := by
  refine ⟨?_, ?_, ?_, ?_, ?_⟩
  · intro s h
    simp only [calculate_trend, h]
  · intro s scores h hlen
    simp only [calculate_trend, h, if_pos hlen]
  · intro s scores h hlen
    simp only [calculate_trend, h, if_neg (not_lt.mpr hlen)]
  · have h : parseScores (some "0,5") = some [0, 5] := by decide
    simp only [calculate_trend, h]
    norm_num [mean]
  · have h : parseScores (some "5,0") = some [5, 0] := by decide
    simp only [calculate_trend, h]
    norm_num [mean]

/-- C3 witness: the general branch applied to the parsed series
"50,60,70,80", whose halves differ by 20, hence `improving`. -/
theorem calculate_trend_spec_witness :
    parseScores (some "50,60,70,80") = some [50, 60, 70, 80] ∧
    calculate_trend (some "50,60,70,80") =
      (let mid := ([50, 60, 70, 80] : List ℚ).length / 2
       let diff := mean (([50, 60, 70, 80] : List ℚ).drop mid) -
         mean (([50, 60, 70, 80] : List ℚ).take mid)
       if 5 < diff then "improving"
       else if diff < -5 then "declining"
       else "stable") := by
  refine ⟨by decide, ?_⟩
  exact calculate_trend_spec.2.2.1 _ _ (by decide) (by norm_num)

/-- C1: `analyze_student` produces metrics whose average score is
`round((assignment average + quiz average) / 2, 2)`, whose trend comes
from the assignment series alone, whose risk level is
`determine_risk_level` of the derived average and the stored
attendance/completion, and whose completion is the record's
`completion_rate` when the field is present (an explicit 0 kept) and
`100` when it is absent. -/
theorem analyze_student_spec :
    ∀ row : Record,
      (analyze_student row).average_score =
        rnd2 ((calculate_average_score row.assignment_scores +
               calculate_average_score row.quiz_scores) / 2) ∧
      (analyze_student row).trend = calculate_trend row.assignment_scores ∧
      (analyze_student row).risk_level =
        determine_risk_level (analyze_student row).average_score
          (analyze_student row).attendance_rate
          (analyze_student row).assignment_completion ∧
      (∀ c : ℚ, row.completion_rate = some c →
        (analyze_student row).assignment_completion = c) ∧
      (row.completion_rate = none →
        (analyze_student row).assignment_completion = 100) := by
  intro row
  refine ⟨rfl, rfl, rfl, ?_, ?_⟩
  · intro c h
    simp [analyze_student, h]
  · intro h
    simp [analyze_student, h]

/-- C1 witness: a record carrying an explicit `completion_rate = 0`
keeps completion 0 (presence, not value, decides the default). -/
theorem analyze_student_spec_witness :
    ({ student_id := "S1", completion_rate := some 0 } :
        Record).completion_rate = some 0 ∧
    (analyze_student
        { student_id := "S1", completion_rate := some 0 }).assignment_completion
      = 0 :=
  ⟨rfl, (analyze_student_spec _).2.2.2.1 0 rfl⟩

/-- C10: a record without the attendance field is analyzed with
attendance 0 — the metrics carry `attendance_rate = 0` and the risk
level is computed with attendance 0 (unlike the missing-completion
default of 100). -/
theorem analyze_student_missing_attendance :
    ∀ row : Record, row.attendance = none →
      (analyze_student row).attendance_rate = 0 ∧
      (analyze_student row).risk_level =
        determine_risk_level (analyze_student row).average_score 0
          (analyze_student row).assignment_completion := by
  intro row h
  constructor
  · simp [analyze_student, h]
  · simp [analyze_student, h]

/-- C10 witness: a concrete record with no attendance field. -/
theorem analyze_student_missing_attendance_witness :
    ({ student_id := "S2" } : Record).attendance = none ∧
    (analyze_student { student_id := "S2" }).attendance_rate = 0 :=
  ⟨rfl, (analyze_student_missing_attendance _ rfl).1⟩

/-- C5: `analyze_all_students` raises if and only if no data has been
loaded; once a (possibly empty) record collection is supplied it always
succeeds, and on an empty collection it returns the empty mapping. -/
theorem analyze_all_students_spec :
    ∀ st : AnalyzerState,
      ((∃ e, analyze_all_students st = .error e) ↔ st.data = none) ∧
      (∀ rows, st.data = some rows →
        analyze_all_students st =
          .ok (buildMetrics rows, { st with metrics := buildMetrics rows })) ∧
      (st.data = some [] →
        analyze_all_students st = .ok ([], { st with metrics := [] })) := by
  intro st
  refine ⟨⟨?_, ?_⟩, ?_, ?_⟩
  · rintro ⟨e, he⟩
    cases hd : st.data with
    | none => rfl
    | some rows => simp [analyze_all_students, hd] at he
  · intro hd
    refine ⟨"No data loaded. Call load_data() first.", ?_⟩
    simp [analyze_all_students, hd]
  · intro rows hd
    simp [analyze_all_students, hd]
  · intro hd
    simp [analyze_all_students, hd, buildMetrics]

/-- C5 witness: an analyzer loaded with the empty collection succeeds
with the empty mapping. -/
theorem analyze_all_students_spec_witness :
    (AnalyzerState.mk (some []) []).data = some [] ∧
    analyze_all_students (AnalyzerState.mk (some []) []) =
      .ok ([], AnalyzerState.mk (some []) []) :=
  ⟨rfl, (analyze_all_students_spec (AnalyzerState.mk (some []) [])).2.2 rfl⟩

/-- C9: `analyze_all_students` is idempotent — rerunning it on the
state a successful run leaves behind (same record collection) returns
the identical mapping and state. -/
theorem analyze_all_students_idempotent :
    ∀ (st : AnalyzerState) (m : List (String × StudentMetrics))
      (st2 : AnalyzerState),
      analyze_all_students st = .ok (m, st2) →
      analyze_all_students st2 = .ok (m, st2) := by
  intro st m st2 h
  cases hd : st.data with
  | none => simp [analyze_all_students, hd] at h
  | some rows =>
      simp only [analyze_all_students, hd, Except.ok.injEq, Prod.mk.injEq] at h
      obtain ⟨hm, hst⟩ := h
      subst hst
      simp [analyze_all_students, hd, hm]

/-- C9 witness: a second run on the state left by a first run over the
empty collection returns the same empty mapping. -/
theorem analyze_all_students_idempotent_witness :
    analyze_all_students (AnalyzerState.mk (some []) []) =
      .ok ([], AnalyzerState.mk (some []) []) :=
  analyze_all_students_idempotent (AnalyzerState.mk (some []) []) [] _ rfl

/-- C7: `generate_recommendations` answers one not-found message for an
absent id; for a present id it checks five independent conditions in a
fixed order (score < 60, attendance < 80, completion < 90, declining
trend, high risk), one message each, and emits exactly the single
positive message if and only if none of the five hold — so the positive
message never co-occurs with the others and the result is never
empty. -/
theorem generate_recommendations_spec :
    ∀ (st : AnalyzerState) (student_id : String),
      (lookupOrd st.metrics student_id = none →
        generate_recommendations st student_id = [msgNotFound]) ∧
      (∀ m, lookupOrd st.metrics student_id = some m →
        (generate_recommendations st student_id =
          if m.average_score < 60 ∨ m.attendance_rate < 80 ∨
              m.assignment_completion < 90 ∨ m.trend = "declining" ∨
              m.risk_level = "high" then
            (if m.average_score < 60 then [msgTutoring] else []) ++
            (if m.attendance_rate < 80 then [msgAttendance] else []) ++
            (if m.assignment_completion < 90 then [msgCompletion] else []) ++
            (if m.trend = "declining" then [msgDeclining] else []) ++
            (if m.risk_level = "high" then [msgHighRisk] else [])
          else [msgPositive]) ∧
        (msgPositive ∈ generate_recommendations st student_id ↔
          ¬(m.average_score < 60 ∨ m.attendance_rate < 80 ∨
            m.assignment_completion < 90 ∨ m.trend = "declining" ∨
            m.risk_level = "high")) ∧
        generate_recommendations st student_id ≠ []) := by
  have hmsg : msgPositive ≠ msgTutoring ∧ msgPositive ≠ msgAttendance ∧
      msgPositive ≠ msgCompletion ∧ msgPositive ≠ msgDeclining ∧
      msgPositive ≠ msgHighRisk := by decide
  intro st student_id
  refine ⟨?_, ?_⟩
  · intro h
    simp [generate_recommendations, h]
  · intro m h
    simp only [generate_recommendations, h]
    by_cases h1 : m.average_score < 60 <;>
      by_cases h2 : m.attendance_rate < 80 <;>
      by_cases h3 : m.assignment_completion < 90 <;>
      by_cases h4 : m.trend = "declining" <;>
      by_cases h5 : m.risk_level = "high" <;>
      simp [h1, h2, h3, h4, h5, hmsg.1, hmsg.2.1, hmsg.2.2.1,
        hmsg.2.2.2.1, hmsg.2.2.2.2]

/-- C7 witness: a well-performing student (95/98/100, stable, low)
found in the mapping gets a nonempty recommendation list. -/
theorem generate_recommendations_spec_witness :
    lookupOrd [("S1", StudentMetrics.mk "S1" 95 98 100 "stable" "low")] "S1" =
      some (StudentMetrics.mk "S1" 95 98 100 "stable" "low") ∧
    generate_recommendations
        (AnalyzerState.mk none
          [("S1", StudentMetrics.mk "S1" 95 98 100 "stable" "low")]) "S1" ≠ [] := by
  have h : lookupOrd
      [("S1", StudentMetrics.mk "S1" 95 98 100 "stable" "low")] "S1" =
      some (StudentMetrics.mk "S1" 95 98 100 "stable" "low") := by decide
  exact ⟨h, ((generate_recommendations_spec
    (AnalyzerState.mk none
      [("S1", StudentMetrics.mk "S1" 95 98 100 "stable" "low")]) "S1").2 _ h).2.2⟩

/-- C8: with duplicate identifiers, the mapping built by
`analyze_all_students` binds each id to the metrics of the last record
carrying it (last-write-wins), with ids in input first-occurrence
order; and `get_at_risk_students` returns exactly the metrics at the
requested level in the mapping's insertion order. -/
theorem analyze_all_duplicates_spec :
    (∀ (st : AnalyzerState) (rows : List Record)
        (m : List (String × StudentMetrics)) (st2 : AnalyzerState),
      st.data = some rows → analyze_all_students st = .ok (m, st2) →
      m.map Prod.fst = dedupKeepFirst (rows.map (fun r => r.student_id)) ∧
      ∀ k, lookupOrd m k =
        (rows.reverse.find? (fun r => r.student_id = k)).map
          analyze_student) ∧
    (∀ (st : AnalyzerState) (lvl : String), st.metrics ≠ [] →
      get_at_risk_students st lvl =
        .ok ((st.metrics.map Prod.snd).filter
          (fun x => x.risk_level = lvl), st)) := by
  constructor
  · intro st rows m st2 hd h
    simp only [analyze_all_students, hd, Except.ok.injEq, Prod.mk.injEq] at h
    obtain ⟨hm, -⟩ := h
    subst hm
    constructor
    · have hk := keys_foldl rows []
      simpa [buildMetrics] using hk
    · intro k
      have hl := lookupOrd_foldl rows [] k
      simpa [buildMetrics, lookupOrd] using hl
  · intro st lvl hne
    simp [get_at_risk_students, hne]

/-- C8 witness: three records with a duplicated id "A" — the key list
is ["A", "B"] and "A" resolves to the analysis of the third record —
plus the filter applied to a nonempty one-student mapping. -/
theorem analyze_all_duplicates_spec_witness :
    (buildMetrics
        ([{ student_id := "A" }, { student_id := "B" },
          { student_id := "A", attendance := some 50 }] :
          List Record)).map Prod.fst =
      dedupKeepFirst
        (([{ student_id := "A" }, { student_id := "B" },
          { student_id := "A", attendance := some 50 }] :
          List Record).map (fun r => r.student_id)) ∧
    lookupOrd
        (buildMetrics
          ([{ student_id := "A" }, { student_id := "B" },
            { student_id := "A", attendance := some 50 }] :
            List Record)) "A" =
      (([{ student_id := "A" }, { student_id := "B" },
          { student_id := "A", attendance := some 50 }] :
          List Record).reverse.find?
        (fun r => r.student_id = "A")).map analyze_student ∧
    (AnalyzerState.mk none
        [("S1", StudentMetrics.mk "S1" 95 98 100 "stable" "low")]).metrics
      ≠ [] ∧
    get_at_risk_students
        (AnalyzerState.mk none
          [("S1", StudentMetrics.mk "S1" 95 98 100 "stable" "low")]) "low" =
      .ok ((([("S1", StudentMetrics.mk "S1" 95 98 100 "stable" "low")] :
            List (String × StudentMetrics)).map Prod.snd).filter
          (fun x => x.risk_level = "low"),
        AnalyzerState.mk none
          [("S1", StudentMetrics.mk "S1" 95 98 100 "stable" "low")]) := by
  have h := analyze_all_duplicates_spec.1
    (AnalyzerState.mk
      (some ([{ student_id := "A" }, { student_id := "B" },
        { student_id := "A", attendance := some 50 }] : List Record)) [])
    ([{ student_id := "A" }, { student_id := "B" },
      { student_id := "A", attendance := some 50 }] : List Record)
    (buildMetrics
      ([{ student_id := "A" }, { student_id := "B" },
        { student_id := "A", attendance := some 50 }] : List Record))
    (AnalyzerState.mk
      (some ([{ student_id := "A" }, { student_id := "B" },
        { student_id := "A", attendance := some 50 }] : List Record))
      (buildMetrics
        ([{ student_id := "A" }, { student_id := "B" },
          { student_id := "A", attendance := some 50 }] : List Record)))
    rfl rfl
  refine ⟨h.1, h.2 "A", by simp, ?_⟩
  exact analyze_all_duplicates_spec.2
    (AnalyzerState.mk none
      [("S1", StudentMetrics.mk "S1" 95 98 100 "stable" "low")]) "low"
    (by simp)

/-- C6: statistics never fail on an empty cohort — on the empty mapping
every field is zero — and in general the at-risk percentage is
`(medium + high) / total × 100` rounded to two decimals, with the score
spread being the population standard deviation (shown concretely:
scores {0, 10} give exactly 5, where a sample deviation would give
√50). -/
theorem get_statistics_spec :
    statisticsOf [] =
      { total_students := 0, average_score_mean := 0, average_score_std := 0,
        average_attendance := 0, risk_low := 0, risk_medium := 0,
        risk_high := 0, trend_improving := 0, trend_stable := 0,
        trend_declining := 0, at_risk_percentage := 0 } ∧
    (∀ st : AnalyzerState, st.data = some [] → st.metrics = [] →
      get_statistics st = .ok (statisticsOf [], { st with metrics := [] })) ∧
    (∀ ms : List (String × StudentMetrics), ms ≠ [] →
      (statisticsOf ms).at_risk_percentage =
        rnd2 (((((ms.map Prod.snd).filter
              (fun x => x.risk_level = "medium")).length : ℚ) +
            (((ms.map Prod.snd).filter
              (fun x => x.risk_level = "high")).length : ℚ)) /
          (ms.length : ℚ) * 100)) ∧
    (statisticsOf [("A", StudentMetrics.mk "A" 0 100 100 "stable" "low"),
        ("B", StudentMetrics.mk "B" 10 100 100 "stable" "low")]).average_score_std
      = 5 := by
  refine ⟨?_, ?_, ?_, ?_⟩
  · simp [statisticsOf]
  · intro st h1 h2
    have ha : analyze_all_students st = .ok ([], { st with metrics := [] }) := by
      simp [analyze_all_students, h1, buildMetrics]
    simp [get_statistics, h2, ha]
  · intro ms hne
    simp only [statisticsOf, ne_eq, hne, not_false_iff, if_true]
    exact congrArg rnd2 (by ring)
  · have hv : popVariance [0, 10] = 25 := by
      norm_num [popVariance, mean]
    have h25 : Real.sqrt (25 : ℝ) = 5 := by
      rw [show (25 : ℝ) = 5 ^ 2 by norm_num,
        Real.sqrt_sq (by norm_num : (0 : ℝ) ≤ 5)]
    have hr5 : rnd2R 5 = 5 := by
      unfold rnd2R roundHalfEvenR
      rw [show (5 : ℝ) * 100 = ((500 : ℤ) : ℝ) by norm_num, Int.floor_intCast]
      norm_num
    have hcond : ¬(([0, 10] : List ℚ) = []) := by simp
    simp only [statisticsOf, List.map_cons, List.map_nil]
    norm_num [hv]
    rw [if_neg hcond, h25, hr5]

/-- C6 witness: the analyzer loaded with the empty collection — empty
metrics, statistics succeed with the all-zero record. -/
theorem get_statistics_spec_witness :
    (AnalyzerState.mk (some []) []).data = some [] ∧
    (AnalyzerState.mk (some []) []).metrics = [] ∧
    get_statistics (AnalyzerState.mk (some []) []) =
      .ok (statisticsOf [], AnalyzerState.mk (some []) []) :=
  ⟨rfl, rfl, get_statistics_spec.2.1 (AnalyzerState.mk (some []) []) rfl rfl⟩

end StudentPerf
